import Mathlib

/-!
Verification development for the event dispatch and synthesis subsystem of
`uiohook-rs`. The definitions below are a shallow embedding of the Rust
source (`src/hook/event.rs`, `src/hook/global.rs`, `src/hook/constants.rs`,
`src/error.rs`).

Modelling conventions:
* machine integers (`u16`, `u128`, ...) are `Nat`, with an explicit
  `% 2 ^ w` exactly at the places the Rust code performs an `as` cast or a
  wrapping operation; `i16` fields are `Int` (they are only copied, never
  cast, by the embedded code);
* the side effects at the native boundary (handing an event to
  `hook_post_event`, sleeping) are collected into an explicit trace of
  `Action`s, and sends on the event bus into an explicit list, so stateful
  functions become pure functions returning `result × trace`;
* process-wide atomics/mutex-guarded cells (the `RUNNING` flag, the
  `SYNTHETIC` correlation cell, the `HOOK_ID` counter) become explicit
  state arguments threaded through the corresponding functions.

The build targets the Linux configuration of the crate (the `cfg` choices
in the source: Linux `HookError`, single-event `dragged`, no Windows
drag-to-move remapping in `set_mode`).
-/

set_option maxRecDepth 8192

namespace Uiohook

/-! ## Event mode bitflags (`src/hook/constants.rs`, `EventMode`)

`EventMode` is a `bitflags` struct over `u16` with `DEFAULT = 0`,
`RESERVED = 0b01`, `SYNTHETIC = 0b10`. -/

structure EventMode where
  bits : Nat
  deriving DecidableEq, Repr

def EventMode.DEFAULT : EventMode := ⟨0⟩

def EventMode.RESERVED : EventMode := ⟨1⟩

def EventMode.SYNTHETIC : EventMode := ⟨2⟩

/-- Bitwise union of flag sets (`bitflags` `insert` inserts the other
set's bits). -/
def EventMode.insert (m f : EventMode) : EventMode := ⟨m.bits ||| f.bits⟩

/-- `bitflags` `contains`: all bits of `f` are present in `m`. -/
def EventMode.contains (m f : EventMode) : Bool := m.bits &&& f.bits == f.bits

/-- `bitflags` `from_bits`: succeeds iff no unknown bit is set; the known
bits of `EventMode` are `RESERVED ||| SYNTHETIC = 0b11`. -/
def EventMode.from_bits (n : Nat) : Option EventMode :=
  if n &&& 3 == n then some ⟨n⟩ else none

instance : Inhabited EventMode := ⟨EventMode.DEFAULT⟩

/-! ## Native constant enumerations

Each `constant_to_enum!` invocation in `src/hook/constants.rs` produces an
enum with one variant per native constant plus an `Unknown(u32)` escape
variant, a `From<uNN>` decoder matching the constants in declaration order
with `Unknown` as the fallback arm, and a `From<Enum> for uNN` encoder
(`Unknown(val) => val as uNN`, a truncating cast).

We embed each enum as an inductive type together with its association list
of `(native code, variant)` pairs in the declaration order of the source;
the decoder is first-match lookup in that list and the encoder maps each
variant to its code (with `% 2 ^ w` for the `Unknown` cast).

The numeric values of the native constants live in the external
`libuiohook` header (the generated `uiohook-sys` bindings, outside this
repository). The development relies only on the facts that the assignment
is injective and that every code fits the target width, which the header
guarantees. The mask, mouse-button and wheel constants below use the
header's well-known values (`MASK_NONE = 0` is even defined locally in
`constants.rs`); the key-code table assigns codes by declaration position,
with `VC_UNDEFINED = 0` as in the header. -/

inductive EventMask where
  | none | LeftShift | LeftControl | LeftMeta | LeftAlt
  | RightShift | RightControl | RightMeta | RightAlt
  | Shift | Control | Meta | Alt
  | LeftMouseButton | RightMouseButton | MiddleMouseButton
  | ExtraMouseButton1 | ExtraMouseButton2
  | NumLock | CapsLock | ScrollLock
  | Unknown (val : Nat)
  deriving DecidableEq, Repr

/-- The `(constant, variant)` arms of `EventMask`'s conversions, in
declaration order (`MASK_NONE = 0`; the rest are the `libuiohook` mask
bits). -/
def maskArms : List (Nat × EventMask) :=
  [(0, .none), (1, .LeftShift), (2, .LeftControl), (4, .LeftMeta), (8, .LeftAlt),
   (16, .RightShift), (32, .RightControl), (64, .RightMeta), (128, .RightAlt),
   (17, .Shift), (34, .Control), (68, .Meta), (136, .Alt),
   (256, .LeftMouseButton), (512, .RightMouseButton), (1024, .MiddleMouseButton),
   (2048, .ExtraMouseButton1), (4096, .ExtraMouseButton2),
   (8192, .NumLock), (16384, .CapsLock), (32768, .ScrollLock)]

/-- `From<u16> for EventMask` (the macro-generated match, first arm wins;
fallback is `Unknown`). -/
def maskOfCode (n : Nat) : EventMask :=
  match maskArms.find? (fun p => p.1 == n) with
  | some p => p.2
  | Option.none => .Unknown n

/-- `From<EventMask> for u16`; the `Unknown(val)` arm is `val as u16`. -/
def maskToCode : EventMask → Nat
  | .none => 0
  | .LeftShift => 1
  | .LeftControl => 2
  | .LeftMeta => 4
  | .LeftAlt => 8
  | .RightShift => 16
  | .RightControl => 32
  | .RightMeta => 64
  | .RightAlt => 128
  | .Shift => 17
  | .Control => 34
  | .Meta => 68
  | .Alt => 136
  | .LeftMouseButton => 256
  | .RightMouseButton => 512
  | .MiddleMouseButton => 1024
  | .ExtraMouseButton1 => 2048
  | .ExtraMouseButton2 => 4096
  | .NumLock => 8192
  | .CapsLock => 16384
  | .ScrollLock => 32768
  | .Unknown val => val % 2 ^ 16

/-- `Default for EventMask` is `Unknown(0)` (the macro's `Default` impl). -/
instance : Inhabited EventMask := ⟨.Unknown 0⟩

inductive MouseButton where
  | NoButton | Left | Right | Middle | Extra1 | Extra2
  | Unknown (val : Nat)
  deriving DecidableEq, Repr

def buttonArms : List (Nat × MouseButton) :=
  [(0, .NoButton), (1, .Left), (2, .Right), (3, .Middle), (4, .Extra1), (5, .Extra2)]

def buttonOfCode (n : Nat) : MouseButton :=
  match buttonArms.find? (fun p => p.1 == n) with
  | some p => p.2
  | Option.none => .Unknown n

def buttonToCode : MouseButton → Nat
  | .NoButton => 0
  | .Left => 1
  | .Right => 2
  | .Middle => 3
  | .Extra1 => 4
  | .Extra2 => 5
  | .Unknown val => val % 2 ^ 16

instance : Inhabited MouseButton := ⟨.Unknown 0⟩

inductive MouseScrollKind where
  | Unit | Block
  | Unknown (val : Nat)
  deriving DecidableEq, Repr

def scrollKindArms : List (Nat × MouseScrollKind) := [(1, .Unit), (2, .Block)]

def scrollKindOfCode (n : Nat) : MouseScrollKind :=
  match scrollKindArms.find? (fun p => p.1 == n) with
  | some p => p.2
  | Option.none => .Unknown n

/-- The scroll-kind enum converts to `u8`, so the `Unknown` cast truncates
to eight bits. -/
def scrollKindToCode : MouseScrollKind → Nat
  | .Unit => 1
  | .Block => 2
  | .Unknown val => val % 2 ^ 8

instance : Inhabited MouseScrollKind := ⟨.Unknown 0⟩

inductive MouseScrollDirection where
  | Vertical | Horizontal
  | Unknown (val : Nat)
  deriving DecidableEq, Repr

def scrollDirectionArms : List (Nat × MouseScrollDirection) :=
  [(3, .Vertical), (4, .Horizontal)]

def scrollDirectionOfCode (n : Nat) : MouseScrollDirection :=
  match scrollDirectionArms.find? (fun p => p.1 == n) with
  | some p => p.2
  | Option.none => .Unknown n

def scrollDirectionToCode : MouseScrollDirection → Nat
  | .Vertical => 3
  | .Horizontal => 4
  | .Unknown val => val % 2 ^ 8

instance : Inhabited MouseScrollDirection := ⟨.Unknown 0⟩

/-- The named (unit) variants of the source's `Key` enum. The source has a
single flat enum with 172 unit variants plus `Unknown(u32)`; we split the
unit variants into their own enumeration (`Key.Named` below corresponds
one-to-one to the source's named variants) to keep the derived instances
tractable. -/
inductive KeyName where
  | Escape | F1 | F2 | F3 | F4 | F5
  | F6 | F7 | F8 | F9 | F10 | F11
  | F12 | F13 | F14 | F15 | F16 | F17
  | F18 | F19 | F20 | F21 | F22 | F23
  | F24 | Backquote | Key1 | Key2 | Key3 | Key4
  | Key5 | Key6 | Key7 | Key8 | Key9 | Key0
  | Minus | Equals | Backspace | Tab | CapsLock | A
  | B | C | D | E | F | G
  | H | I | J | K | L | M
  | N | O | P | Q | R | S
  | T | U | V | W | X | Y
  | Z | OpenBracket | CloseBracket | BackSlash | SemiColon | Quote
  | Enter | Comma | Period | Slash | Space | PrintScreen
  | ScrollLock | Pause | LesserGreater | Insert | Delete | Home
  | End | PageUp | PageDown | Up | Left | Clear
  | Right | Down | NumLock | NumPadDivide | NumPadMultiply | NumPadSubtract
  | NumPadEquals | NumPadAdd | NumPadEnter | NumPadSeparator | NumPad1 | NumPad2
  | NumPad3 | NumPad4 | NumPad5 | NumPad6 | NumPad7 | NumPad8
  | NumPad9 | NumPad0 | NumPadEnd | NumPadDown | NumPadPageDown | NumPadLeft
  | NumPadClear | NumPadRight | NumPadHome | NumPadUp | NumPadPageUp | NumPadInsert
  | NumPadDelete | LeftShift | RightShift | LeftControl | RightControl | LeftAlt
  | RightAlt | LeftMeta | RightMeta | ContextMenu | Power | Sleep
  | Wake | MediaPlay | MediaStop | MediaPrevious | MediaNext | MediaSelect
  | MediaEject | MediaMute | VolumeUp | VolumeDown | AppMail | AppCalculator
  | AppMusic | Apppictures | BrowserSearch | BrowserHome | BrowserBack | BrowserForward
  | BrowserStop | BrowserRefresh | BrowserFavorites | Katakana | Underscore | Furigana
  | Kanji | Hiragana | Yen | NumPadComma | SunHelp | SunStop
  | SunProps | SunFront | SunOpen | SinFind | SunAgain | SunUndo
  | SunCopy | SunInsert | SunCut | Undefined
  deriving DecidableEq

/-- The source's `Key` enum: a named key, or the `Unknown(code)` escape
variant. -/
inductive Key where
  | Named (n : KeyName)
  | Unknown (val : Nat)
  deriving DecidableEq

/-- Native code of each named key, modelled by declaration position
(`VC_UNDEFINED = 0` as in the native header); see the section comment
above on native constant values. -/
def keyNameCode : KeyName → Nat
  | .Escape => 1
  | .F1 => 2
  | .F2 => 3
  | .F3 => 4
  | .F4 => 5
  | .F5 => 6
  | .F6 => 7
  | .F7 => 8
  | .F8 => 9
  | .F9 => 10
  | .F10 => 11
  | .F11 => 12
  | .F12 => 13
  | .F13 => 14
  | .F14 => 15
  | .F15 => 16
  | .F16 => 17
  | .F17 => 18
  | .F18 => 19
  | .F19 => 20
  | .F20 => 21
  | .F21 => 22
  | .F22 => 23
  | .F23 => 24
  | .F24 => 25
  | .Backquote => 26
  | .Key1 => 27
  | .Key2 => 28
  | .Key3 => 29
  | .Key4 => 30
  | .Key5 => 31
  | .Key6 => 32
  | .Key7 => 33
  | .Key8 => 34
  | .Key9 => 35
  | .Key0 => 36
  | .Minus => 37
  | .Equals => 38
  | .Backspace => 39
  | .Tab => 40
  | .CapsLock => 41
  | .A => 42
  | .B => 43
  | .C => 44
  | .D => 45
  | .E => 46
  | .F => 47
  | .G => 48
  | .H => 49
  | .I => 50
  | .J => 51
  | .K => 52
  | .L => 53
  | .M => 54
  | .N => 55
  | .O => 56
  | .P => 57
  | .Q => 58
  | .R => 59
  | .S => 60
  | .T => 61
  | .U => 62
  | .V => 63
  | .W => 64
  | .X => 65
  | .Y => 66
  | .Z => 67
  | .OpenBracket => 68
  | .CloseBracket => 69
  | .BackSlash => 70
  | .SemiColon => 71
  | .Quote => 72
  | .Enter => 73
  | .Comma => 74
  | .Period => 75
  | .Slash => 76
  | .Space => 77
  | .PrintScreen => 78
  | .ScrollLock => 79
  | .Pause => 80
  | .LesserGreater => 81
  | .Insert => 82
  | .Delete => 83
  | .Home => 84
  | .End => 85
  | .PageUp => 86
  | .PageDown => 87
  | .Up => 88
  | .Left => 89
  | .Clear => 90
  | .Right => 91
  | .Down => 92
  | .NumLock => 93
  | .NumPadDivide => 94
  | .NumPadMultiply => 95
  | .NumPadSubtract => 96
  | .NumPadEquals => 97
  | .NumPadAdd => 98
  | .NumPadEnter => 99
  | .NumPadSeparator => 100
  | .NumPad1 => 101
  | .NumPad2 => 102
  | .NumPad3 => 103
  | .NumPad4 => 104
  | .NumPad5 => 105
  | .NumPad6 => 106
  | .NumPad7 => 107
  | .NumPad8 => 108
  | .NumPad9 => 109
  | .NumPad0 => 110
  | .NumPadEnd => 111
  | .NumPadDown => 112
  | .NumPadPageDown => 113
  | .NumPadLeft => 114
  | .NumPadClear => 115
  | .NumPadRight => 116
  | .NumPadHome => 117
  | .NumPadUp => 118
  | .NumPadPageUp => 119
  | .NumPadInsert => 120
  | .NumPadDelete => 121
  | .LeftShift => 122
  | .RightShift => 123
  | .LeftControl => 124
  | .RightControl => 125
  | .LeftAlt => 126
  | .RightAlt => 127
  | .LeftMeta => 128
  | .RightMeta => 129
  | .ContextMenu => 130
  | .Power => 131
  | .Sleep => 132
  | .Wake => 133
  | .MediaPlay => 134
  | .MediaStop => 135
  | .MediaPrevious => 136
  | .MediaNext => 137
  | .MediaSelect => 138
  | .MediaEject => 139
  | .MediaMute => 140
  | .VolumeUp => 141
  | .VolumeDown => 142
  | .AppMail => 143
  | .AppCalculator => 144
  | .AppMusic => 145
  | .Apppictures => 146
  | .BrowserSearch => 147
  | .BrowserHome => 148
  | .BrowserBack => 149
  | .BrowserForward => 150
  | .BrowserStop => 151
  | .BrowserRefresh => 152
  | .BrowserFavorites => 153
  | .Katakana => 154
  | .Underscore => 155
  | .Furigana => 156
  | .Kanji => 157
  | .Hiragana => 158
  | .Yen => 159
  | .NumPadComma => 160
  | .SunHelp => 161
  | .SunStop => 162
  | .SunProps => 163
  | .SunFront => 164
  | .SunOpen => 165
  | .SinFind => 166
  | .SunAgain => 167
  | .SunUndo => 168
  | .SunCopy => 169
  | .SunInsert => 170
  | .SunCut => 171
  | .Undefined => 0

/-- The `(constant, variant)` arms of `Key`, in declaration order. -/
def keyArms : List (Nat × Key) :=
  [(1, Key.Named KeyName.Escape), (2, Key.Named KeyName.F1), (3, Key.Named KeyName.F2),
   (4, Key.Named KeyName.F3), (5, Key.Named KeyName.F4), (6, Key.Named KeyName.F5),
   (7, Key.Named KeyName.F6), (8, Key.Named KeyName.F7), (9, Key.Named KeyName.F8),
   (10, Key.Named KeyName.F9), (11, Key.Named KeyName.F10), (12, Key.Named KeyName.F11),
   (13, Key.Named KeyName.F12), (14, Key.Named KeyName.F13), (15, Key.Named KeyName.F14),
   (16, Key.Named KeyName.F15), (17, Key.Named KeyName.F16), (18, Key.Named KeyName.F17),
   (19, Key.Named KeyName.F18), (20, Key.Named KeyName.F19), (21, Key.Named KeyName.F20),
   (22, Key.Named KeyName.F21), (23, Key.Named KeyName.F22), (24, Key.Named KeyName.F23),
   (25, Key.Named KeyName.F24), (26, Key.Named KeyName.Backquote), (27, Key.Named KeyName.Key1),
   (28, Key.Named KeyName.Key2), (29, Key.Named KeyName.Key3), (30, Key.Named KeyName.Key4),
   (31, Key.Named KeyName.Key5), (32, Key.Named KeyName.Key6), (33, Key.Named KeyName.Key7),
   (34, Key.Named KeyName.Key8), (35, Key.Named KeyName.Key9), (36, Key.Named KeyName.Key0),
   (37, Key.Named KeyName.Minus), (38, Key.Named KeyName.Equals),
   (39, Key.Named KeyName.Backspace), (40, Key.Named KeyName.Tab),
   (41, Key.Named KeyName.CapsLock), (42, Key.Named KeyName.A), (43, Key.Named KeyName.B),
   (44, Key.Named KeyName.C), (45, Key.Named KeyName.D), (46, Key.Named KeyName.E),
   (47, Key.Named KeyName.F), (48, Key.Named KeyName.G), (49, Key.Named KeyName.H),
   (50, Key.Named KeyName.I), (51, Key.Named KeyName.J), (52, Key.Named KeyName.K),
   (53, Key.Named KeyName.L), (54, Key.Named KeyName.M), (55, Key.Named KeyName.N),
   (56, Key.Named KeyName.O), (57, Key.Named KeyName.P), (58, Key.Named KeyName.Q),
   (59, Key.Named KeyName.R), (60, Key.Named KeyName.S), (61, Key.Named KeyName.T),
   (62, Key.Named KeyName.U), (63, Key.Named KeyName.V), (64, Key.Named KeyName.W),
   (65, Key.Named KeyName.X), (66, Key.Named KeyName.Y), (67, Key.Named KeyName.Z),
   (68, Key.Named KeyName.OpenBracket), (69, Key.Named KeyName.CloseBracket),
   (70, Key.Named KeyName.BackSlash), (71, Key.Named KeyName.SemiColon),
   (72, Key.Named KeyName.Quote), (73, Key.Named KeyName.Enter), (74, Key.Named KeyName.Comma),
   (75, Key.Named KeyName.Period), (76, Key.Named KeyName.Slash), (77, Key.Named KeyName.Space),
   (78, Key.Named KeyName.PrintScreen), (79, Key.Named KeyName.ScrollLock),
   (80, Key.Named KeyName.Pause), (81, Key.Named KeyName.LesserGreater),
   (82, Key.Named KeyName.Insert), (83, Key.Named KeyName.Delete), (84, Key.Named KeyName.Home),
   (85, Key.Named KeyName.End), (86, Key.Named KeyName.PageUp),
   (87, Key.Named KeyName.PageDown), (88, Key.Named KeyName.Up), (89, Key.Named KeyName.Left),
   (90, Key.Named KeyName.Clear), (91, Key.Named KeyName.Right), (92, Key.Named KeyName.Down),
   (93, Key.Named KeyName.NumLock), (94, Key.Named KeyName.NumPadDivide),
   (95, Key.Named KeyName.NumPadMultiply), (96, Key.Named KeyName.NumPadSubtract),
   (97, Key.Named KeyName.NumPadEquals), (98, Key.Named KeyName.NumPadAdd),
   (99, Key.Named KeyName.NumPadEnter), (100, Key.Named KeyName.NumPadSeparator),
   (101, Key.Named KeyName.NumPad1), (102, Key.Named KeyName.NumPad2),
   (103, Key.Named KeyName.NumPad3), (104, Key.Named KeyName.NumPad4),
   (105, Key.Named KeyName.NumPad5), (106, Key.Named KeyName.NumPad6),
   (107, Key.Named KeyName.NumPad7), (108, Key.Named KeyName.NumPad8),
   (109, Key.Named KeyName.NumPad9), (110, Key.Named KeyName.NumPad0),
   (111, Key.Named KeyName.NumPadEnd), (112, Key.Named KeyName.NumPadDown),
   (113, Key.Named KeyName.NumPadPageDown), (114, Key.Named KeyName.NumPadLeft),
   (115, Key.Named KeyName.NumPadClear), (116, Key.Named KeyName.NumPadRight),
   (117, Key.Named KeyName.NumPadHome), (118, Key.Named KeyName.NumPadUp),
   (119, Key.Named KeyName.NumPadPageUp), (120, Key.Named KeyName.NumPadInsert),
   (121, Key.Named KeyName.NumPadDelete), (122, Key.Named KeyName.LeftShift),
   (123, Key.Named KeyName.RightShift), (124, Key.Named KeyName.LeftControl),
   (125, Key.Named KeyName.RightControl), (126, Key.Named KeyName.LeftAlt),
   (127, Key.Named KeyName.RightAlt), (128, Key.Named KeyName.LeftMeta),
   (129, Key.Named KeyName.RightMeta), (130, Key.Named KeyName.ContextMenu),
   (131, Key.Named KeyName.Power), (132, Key.Named KeyName.Sleep),
   (133, Key.Named KeyName.Wake), (134, Key.Named KeyName.MediaPlay),
   (135, Key.Named KeyName.MediaStop), (136, Key.Named KeyName.MediaPrevious),
   (137, Key.Named KeyName.MediaNext), (138, Key.Named KeyName.MediaSelect),
   (139, Key.Named KeyName.MediaEject), (140, Key.Named KeyName.MediaMute),
   (141, Key.Named KeyName.VolumeUp), (142, Key.Named KeyName.VolumeDown),
   (143, Key.Named KeyName.AppMail), (144, Key.Named KeyName.AppCalculator),
   (145, Key.Named KeyName.AppMusic), (146, Key.Named KeyName.Apppictures),
   (147, Key.Named KeyName.BrowserSearch), (148, Key.Named KeyName.BrowserHome),
   (149, Key.Named KeyName.BrowserBack), (150, Key.Named KeyName.BrowserForward),
   (151, Key.Named KeyName.BrowserStop), (152, Key.Named KeyName.BrowserRefresh),
   (153, Key.Named KeyName.BrowserFavorites), (154, Key.Named KeyName.Katakana),
   (155, Key.Named KeyName.Underscore), (156, Key.Named KeyName.Furigana),
   (157, Key.Named KeyName.Kanji), (158, Key.Named KeyName.Hiragana),
   (159, Key.Named KeyName.Yen), (160, Key.Named KeyName.NumPadComma),
   (161, Key.Named KeyName.SunHelp), (162, Key.Named KeyName.SunStop),
   (163, Key.Named KeyName.SunProps), (164, Key.Named KeyName.SunFront),
   (165, Key.Named KeyName.SunOpen), (166, Key.Named KeyName.SinFind),
   (167, Key.Named KeyName.SunAgain), (168, Key.Named KeyName.SunUndo),
   (169, Key.Named KeyName.SunCopy), (170, Key.Named KeyName.SunInsert),
   (171, Key.Named KeyName.SunCut), (0, Key.Named KeyName.Undefined)]

/-- `From<u16> for Key` (first matching arm wins; fallback is `Unknown`). -/
def keyOfCode (n : Nat) : Key :=
  match keyArms.find? (fun p => p.1 == n) with
  | some p => p.2
  | Option.none => .Unknown n

/-- `From<Key> for u16`; the `Unknown(val)` arm is `val as u16`. -/
def keyToCode : Key → Nat
  | .Named n => keyNameCode n
  | .Unknown val => val % 2 ^ 16

/-- `Default for Key` is `Unknown(0)`. -/
instance : Inhabited Key := ⟨.Unknown 0⟩

/-! ## Event payloads and the event model (`src/hook/event.rs`)

The `map_native!` macro generates, for each payload struct, field-for-field
conversions with the corresponding native struct; the only non-identity
field conversions are the enum codecs above. `u16` fields convert by the
identity (`u16 → u16`), `i16` fields likewise. -/

/-- `KeyboardEvent`: `keycode : Key`, `rawcode : u16`, `keychar : u16`. -/
structure KeyboardEvent where
  keycode : Key
  rawcode : Nat
  keychar : Nat
  deriving DecidableEq

/-- `MouseEvent`: `button : MouseButton`, `clicks : u16`, `x y : i16`. -/
structure MouseEvent where
  button : MouseButton
  clicks : Nat
  x : Int
  y : Int
  deriving DecidableEq

/-- `MouseWheelEvent`: `clicks : u16`, `x y : i16`, `kind`, `amount : u16`,
`rotation : i16`, `direction`. -/
structure MouseWheelEvent where
  clicks : Nat
  x : Int
  y : Int
  kind : MouseScrollKind
  amount : Nat
  rotation : Int
  direction : MouseScrollDirection
  deriving DecidableEq

/-- `EventMetaData`: unix-epoch milliseconds (`u128`), combination mask,
and mode flags. -/
structure EventMetaData where
  time : Nat
  mask : EventMask
  mode : EventMode
  deriving DecidableEq

/-- `Default for EventMetaData` (derived field-wise: `time = 0`,
`mask = EventMask::Unknown(0)`, `mode = EventMode::DEFAULT`). -/
def EventMetaData.default : EventMetaData :=
  { time := 0, mask := EventMask.Unknown 0, mode := EventMode.DEFAULT }

instance : Inhabited EventMetaData := ⟨EventMetaData.default⟩

/-- `EventKind`: the tagged variant of an event. -/
inductive EventKind where
  | Enabled
  | Disabled
  | KeyTyped (data : KeyboardEvent)
  | KeyPressed (data : KeyboardEvent)
  | KeyReleased (data : KeyboardEvent)
  | MouseClicked (data : MouseEvent)
  | MousePressed (data : MouseEvent)
  | MouseReleased (data : MouseEvent)
  | MouseMoved (data : MouseEvent)
  | MouseDragged (data : MouseEvent)
  | MouseWheel (data : MouseWheelEvent)
  deriving DecidableEq

/-- `HookEvent`: metadata plus kind. -/
structure HookEvent where
  metadata : EventMetaData
  kind : EventKind
  deriving DecidableEq

/-- `EventMetaData::is_synthetic`. -/
def EventMetaData.is_synthetic (m : EventMetaData) : Bool :=
  m.mode.contains EventMode.SYNTHETIC

/-- `EventMetaData::is_reserved`. -/
def EventMetaData.is_reserved (m : EventMetaData) : Bool :=
  m.mode.contains EventMode.RESERVED

/-- `HookEvent::is_synthetic` (wrapper around the metadata method). -/
def HookEvent.is_synthetic (e : HookEvent) : Bool := e.metadata.is_synthetic

/-- `HookEvent::is_reserved` (wrapper around the metadata method). -/
def HookEvent.is_reserved (e : HookEvent) : Bool := e.metadata.is_reserved

/-! ## Native representation (`uiohook-sys` bindings)

`uiohook_event` has fields `type_ : event_type`, `data` (a union),
`time : u64`, `mask : u16`, `reserved : u16`. The `event_type` enum is
generated as a closed Rust enum with exactly the eleven variants matched
(exhaustively, no default arm) in `from_native`; we embed it as an
inductive. The data union is embedded as a sum: the source only ever reads
the member matching `type_` (an unsafe read justified by the native
contract), and `into_native` writes the matching member, so the sum is an
exact model of the defined behavior. -/

inductive NativeEventKind where
  | EVENT_HOOK_ENABLED
  | EVENT_HOOK_DISABLED
  | EVENT_KEY_TYPED
  | EVENT_KEY_PRESSED
  | EVENT_KEY_RELEASED
  | EVENT_MOUSE_CLICKED
  | EVENT_MOUSE_PRESSED
  | EVENT_MOUSE_RELEASED
  | EVENT_MOUSE_MOVED
  | EVENT_MOUSE_DRAGGED
  | EVENT_MOUSE_WHEEL
  deriving DecidableEq

/-- Numeric value of the native `event_type` enum (`EVENT_HOOK_ENABLED = 1`
upward, as in the native header); this is the value stored in the
`SYNTHETIC` correlation cell by `native::post_event` (`type_ as u32`). -/
def NativeEventKind.code : NativeEventKind → Nat
  | .EVENT_HOOK_ENABLED => 1
  | .EVENT_HOOK_DISABLED => 2
  | .EVENT_KEY_TYPED => 3
  | .EVENT_KEY_PRESSED => 4
  | .EVENT_KEY_RELEASED => 5
  | .EVENT_MOUSE_CLICKED => 6
  | .EVENT_MOUSE_PRESSED => 7
  | .EVENT_MOUSE_RELEASED => 8
  | .EVENT_MOUSE_MOVED => 9
  | .EVENT_MOUSE_DRAGGED => 10
  | .EVENT_MOUSE_WHEEL => 11

/-- `keyboard_event_data`: all fields `u16`. -/
structure NativeKeyboardData where
  keycode : Nat
  rawcode : Nat
  keychar : Nat
  deriving DecidableEq

/-- `mouse_event_data`: `button clicks : u16`, `x y : i16`. -/
structure NativeMouseData where
  button : Nat
  clicks : Nat
  x : Int
  y : Int
  deriving DecidableEq

/-- `mouse_wheel_event_data`: `clicks : u16`, `x y : i16`, `type_ : u8`,
`amount : u16`, `rotation : i16`, `direction : u8`. -/
structure NativeWheelData where
  clicks : Nat
  x : Int
  y : Int
  type_ : Nat
  amount : Nat
  rotation : Int
  direction : Nat
  deriving DecidableEq

/-- The `data` union of `uiohook_event`. `default` stands for the
zero-initialized union used by `into_native` for `Enabled`/`Disabled`. -/
inductive NativeEventData where
  | default
  | keyboard (data : NativeKeyboardData)
  | mouse (data : NativeMouseData)
  | wheel (data : NativeWheelData)
  deriving DecidableEq

/-- `uiohook_event`. -/
structure NativeEvent where
  type_ : NativeEventKind
  data : NativeEventData
  time : Nat
  mask : Nat
  reserved : Nat
  deriving DecidableEq

/-! ## Payload codecs (the `map_native!`-generated `From` impls) -/

/-- `From<&keyboard_event_data> for KeyboardEvent` (field-wise; `keycode`
through the `Key` decoder). -/
def keyboardFromNative (n : NativeKeyboardData) : KeyboardEvent :=
  { keycode := keyOfCode n.keycode, rawcode := n.rawcode, keychar := n.keychar }

/-- `From<KeyboardEvent> for keyboard_event_data`. -/
def keyboardToNative (k : KeyboardEvent) : NativeKeyboardData :=
  { keycode := keyToCode k.keycode, rawcode := k.rawcode, keychar := k.keychar }

/-- `From<&mouse_event_data> for MouseEvent`. -/
def mouseFromNative (n : NativeMouseData) : MouseEvent :=
  { button := buttonOfCode n.button, clicks := n.clicks, x := n.x, y := n.y }

/-- `From<MouseEvent> for mouse_event_data`. -/
def mouseToNative (m : MouseEvent) : NativeMouseData :=
  { button := buttonToCode m.button, clicks := m.clicks, x := m.x, y := m.y }

/-- `From<&mouse_wheel_event_data> for MouseWheelEvent`. -/
def wheelFromNative (n : NativeWheelData) : MouseWheelEvent :=
  { clicks := n.clicks, x := n.x, y := n.y, kind := scrollKindOfCode n.type_,
    amount := n.amount, rotation := n.rotation,
    direction := scrollDirectionOfCode n.direction }

/-- `From<MouseWheelEvent> for mouse_wheel_event_data`. -/
def wheelToNative (w : MouseWheelEvent) : NativeWheelData :=
  { clicks := w.clicks, x := w.x, y := w.y, type_ := scrollKindToCode w.kind,
    amount := w.amount, rotation := w.rotation,
    direction := scrollDirectionToCode w.direction }

/-- Read of the union member `data.keyboard` (the source's unsafe read; by
the native contract the union always holds the member matching `type_`, so
the other branches are never taken by the embedded callers). -/
def NativeEventData.asKeyboard : NativeEventData → NativeKeyboardData
  | .keyboard d => d
  | _ => ⟨0, 0, 0⟩

/-- Read of the union member `data.mouse`. -/
def NativeEventData.asMouse : NativeEventData → NativeMouseData
  | .mouse d => d
  | _ => ⟨0, 0, 0, 0⟩

/-- Read of the union member `data.wheel`. -/
def NativeEventData.asWheel : NativeEventData → NativeWheelData
  | .wheel d => d
  | _ => ⟨0, 0, 0, 0, 0, 0, 0⟩

/-! ## The Native Bridge codecs (`src/hook/global.rs`, `mod native`) -/

/-- `native::set_timestamp`. The `BASE_TIMESTAMP` once-cell is the explicit
argument `base`, and `now` stands for the `SystemTime::now()` unix
milliseconds sampled when the cell is first initialized. Returns the
corrected timestamp together with the (possibly just initialized) cell
value. Rust computes `now - time` in `u128`; the embedded code inherits
`Nat` truncated subtraction for the (panicking, never exercised) underflow
case. -/
def set_timestamp (base : Option Nat) (now : Nat) (time : Nat) : Nat × Nat :=
  let b := base.getD (now - time)
  (b + time, b)

/-- `native::from_native`, decoding a native record into a `HookEvent`.
`base`/`now` thread the `BASE_TIMESTAMP` state of `set_timestamp`; the
second component is the cell value after the call. -/
def from_native (base : Option Nat) (now : Nat) (native : NativeEvent) :
    HookEvent × Nat :=
  let mode := (EventMode.from_bits native.reserved).getD EventMode.DEFAULT
  let (time, base') := set_timestamp base now native.time
  let meta : EventMetaData :=
    { time := time, mask := maskOfCode native.mask, mode := mode }
  let kind : EventKind :=
    match native.type_ with
    | .EVENT_HOOK_ENABLED => .Enabled
    | .EVENT_HOOK_DISABLED => .Disabled
    | .EVENT_KEY_TYPED => .KeyTyped (keyboardFromNative native.data.asKeyboard)
    | .EVENT_KEY_PRESSED => .KeyPressed (keyboardFromNative native.data.asKeyboard)
    | .EVENT_KEY_RELEASED => .KeyReleased (keyboardFromNative native.data.asKeyboard)
    | .EVENT_MOUSE_CLICKED => .MouseClicked (mouseFromNative native.data.asMouse)
    | .EVENT_MOUSE_PRESSED => .MousePressed (mouseFromNative native.data.asMouse)
    | .EVENT_MOUSE_RELEASED => .MouseReleased (mouseFromNative native.data.asMouse)
    | .EVENT_MOUSE_MOVED => .MouseMoved (mouseFromNative native.data.asMouse)
    | .EVENT_MOUSE_DRAGGED => .MouseDragged (mouseFromNative native.data.asMouse)
    | .EVENT_MOUSE_WHEEL => .MouseWheel (wheelFromNative native.data.asWheel)
  ({ metadata := meta, kind := kind }, base')

/-- `native::into_native`, encoding a `HookEvent` as a native record. The
`time` and `reserved` fields are always zeroed (the OS assigns its own
metadata at dispatch time). -/
def into_native (event : HookEvent) : NativeEvent :=
  let (event_type, event_data) : NativeEventKind × NativeEventData :=
    match event.kind with
    | .Enabled => (.EVENT_HOOK_ENABLED, .default)
    | .Disabled => (.EVENT_HOOK_DISABLED, .default)
    | .KeyTyped d => (.EVENT_KEY_TYPED, .keyboard (keyboardToNative d))
    | .KeyPressed d => (.EVENT_KEY_PRESSED, .keyboard (keyboardToNative d))
    | .KeyReleased d => (.EVENT_KEY_RELEASED, .keyboard (keyboardToNative d))
    | .MouseClicked d => (.EVENT_MOUSE_CLICKED, .mouse (mouseToNative d))
    | .MousePressed d => (.EVENT_MOUSE_PRESSED, .mouse (mouseToNative d))
    | .MouseReleased d => (.EVENT_MOUSE_RELEASED, .mouse (mouseToNative d))
    | .MouseMoved d => (.EVENT_MOUSE_MOVED, .mouse (mouseToNative d))
    | .MouseDragged d => (.EVENT_MOUSE_DRAGGED, .mouse (mouseToNative d))
    | .MouseWheel d => (.EVENT_MOUSE_WHEEL, .wheel (wheelToNative d))
  { type_ := event_type, data := event_data, time := 0,
    mask := maskToCode event.metadata.mask, reserved := 0 }

/-- `native::set_mode`, the tagging step run inside the native callback.
The `SYNTHETIC` atomic cell is the explicit `cell` argument (`0` when
empty); the reservation filter slot is `filter`. The compare-and-swap
succeeds exactly when the cell holds the incoming event's type code; on
success the decoded event gains the `SYNTHETIC` flag and the cell is
cleared. A successful filter call sets `RESERVED` on the decoded event and
on the native record's `reserved` field. (This is the Linux build: the
Windows-only drag-to-move remapping of the compared type is absent.) -/
def set_mode (cell : Nat) (filter : Option (HookEvent → Bool))
    (rusty : HookEvent) (native : NativeEvent) :
    HookEvent × NativeEvent × Nat :=
  let event_type := native.type_
  let casHit : Bool := cell == event_type.code
  let rusty :=
    if casHit then
      { rusty with metadata := { rusty.metadata with
          mode := rusty.metadata.mode.insert EventMode.SYNTHETIC } }
    else rusty
  let cell := if casHit then 0 else cell
  match filter with
  | some callback =>
    if callback rusty then
      ({ rusty with metadata := { rusty.metadata with
           mode := rusty.metadata.mode.insert EventMode.RESERVED } },
       { native with reserved := EventMode.RESERVED.bits }, cell)
    else (rusty, native, cell)
  | Option.none => (rusty, native, cell)

/-! ## Posting (`src/error.rs`, `src/hook/global.rs`, `src/hook/event.rs`)

The observable side effects of the posting functions are collected into a
trace of `Action`s: `Action.post e` is a call to `native::post_event(e)`
(which unconditionally stores `into_native e`'s type code into the
`SYNTHETIC` cell and hands `into_native e` to the engine's
`hook_post_event` primitive), and `Action.sleep ms` is a
`thread::sleep`. -/

/-- `PostEventError(String)`: the payload names the control kind whose
post was attempted (the `Display` message interpolates it). -/
structure PostEventError where
  kindName : String
  deriving DecidableEq

/-- An observable effect of a posting function. -/
inductive Action where
  | post (e : HookEvent)
  | sleep (ms : Nat)
  deriving DecidableEq

/-- The native records the engine's post primitive receives from a trace:
each `Action.post e` hands it `into_native e`. -/
def nativeReceived (tr : List Action) : List NativeEvent :=
  match tr with
  | [] => []
  | .post e :: rest => into_native e :: nativeReceived rest
  | .sleep _ :: rest => nativeReceived rest

/-- `global::postable_event`: only `Enabled`/`Disabled` are rejected. -/
def postable_event (event : HookEvent) : Except PostEventError Unit :=
  match event.kind with
  | .Enabled => .error ⟨"Enabled"⟩
  | .Disabled => .error ⟨"Disabled"⟩
  | _ => .ok ()

/-- `global::post_event`: validate, and hand the event to
`native::post_event` only when the check passes. -/
def post_event (event : HookEvent) : Except PostEventError Unit × List Action :=
  let res := postable_event event
  match res with
  | .ok _ => (res, [.post event])
  | .error _ => (res, [])

/-- `HookEvent::post` (delegates to `post_event`). -/
def HookEvent.post (e : HookEvent) : Except PostEventError Unit × List Action :=
  post_event e

/-- `EventPair`: a press/release pair built by a `pair()` terminal. -/
structure EventPair where
  press : HookEvent
  release : HookEvent
  deriving DecidableEq

/-- `EventPair::postable`: both halves must pass `postable_event` (press
checked first, `?`-propagating its error). -/
def EventPair.postable (p : EventPair) : Except PostEventError Unit :=
  match postable_event p.press with
  | .error e => .error e
  | .ok _ => postable_event p.release

/-- `EventPair::post`: check both, then post press then release. -/
def EventPair.post (p : EventPair) : Except PostEventError Unit × List Action :=
  match p.postable with
  | .error e => (.error e, [])
  | .ok _ =>
    let (r1, t1) := post_event p.press
    match r1 with
    | .error e => (.error e, t1)
    | .ok _ =>
      let (r2, t2) := post_event p.release
      (r2, t1 ++ t2)

/-- `EventPair::post_delayed`: check both, post press, sleep, post
release. -/
def EventPair.post_delayed (p : EventPair) (delay : Nat) :
    Except PostEventError Unit × List Action :=
  match p.postable with
  | .error e => (.error e, [])
  | .ok _ =>
    let (r1, t1) := post_event p.press
    match r1 with
    | .error e => (.error e, t1)
    | .ok _ =>
      let (r2, t2) := post_event p.release
      (r2, t1 ++ [.sleep delay] ++ t2)

/-- The collection loop shared by the `*_sequence` methods of
`PairEventIterator`: for each pair, `ep.postable()?`, then push the press
onto `pres_vec` and the release onto `release_vec`; the first failing pair
aborts the whole call (before anything is posted). -/
def sequenceCollect :
    List EventPair → Except PostEventError (List HookEvent × List HookEvent)
  | [] => .ok ([], [])
  | ep :: rest =>
    match ep.postable with
    | .error e => .error e
    | .ok _ =>
      match sequenceCollect rest with
      | .error e => .error e
      | .ok (ps, rs) => .ok (ep.press :: ps, ep.release :: rs)

/-- The `for_each(|e| post_event(e).expect(..))` loops that drain the
collected vectors. -/
def postAll : List HookEvent → List Action
  | [] => []
  | e :: rest => (post_event e).2 ++ postAll rest

/-- `PairEventIterator::post_sequence`: collect and validate every pair up
front, then post all presses in order, then all releases in order. -/
def post_sequence (pairs : List EventPair) :
    Except PostEventError Unit × List Action :=
  match sequenceCollect pairs with
  | .error e => (.error e, [])
  | .ok (ps, rs) => (.ok (), postAll ps ++ postAll rs)

/-- `PairEventIterator::post_delayed_sequence`: as `post_sequence`, with a
sleep between the press block and the release block. -/
def post_delayed_sequence (pairs : List EventPair) (delay : Nat) :
    Except PostEventError Unit × List Action :=
  match sequenceCollect pairs with
  | .error e => (.error e, [])
  | .ok (ps, rs) => (.ok (), postAll ps ++ [.sleep delay] ++ postAll rs)

/-! ## Event builders (`src/hook/event.rs`) -/

/-- `KeyboardEventBuilder` state. -/
structure KeyboardEventBuilder where
  meta : EventMetaData
  event : KeyboardEvent
  deriving DecidableEq

/-- `HookEvent::keyboard(key)`: metadata starts as default except
`mode = SYNTHETIC`; `rawcode` and `keychar` are both `key.into()`. -/
def HookEvent.keyboard (key : Key) : KeyboardEventBuilder :=
  { meta := { EventMetaData.default with mode := EventMode.SYNTHETIC },
    event := { keycode := key, rawcode := keyToCode key, keychar := keyToCode key } }

/-- `KeyboardEventBuilder::with_mask`. -/
def KeyboardEventBuilder.with_mask (b : KeyboardEventBuilder) (mask : EventMask) :
    KeyboardEventBuilder :=
  { b with meta := { b.meta with mask := mask } }

/-- `KeyboardEventBuilder::pair`: press and release share the builder's
metadata and payload. -/
def KeyboardEventBuilder.pair (b : KeyboardEventBuilder) : EventPair :=
  { press := { metadata := b.meta, kind := .KeyPressed b.event },
    release := { metadata := b.meta, kind := .KeyReleased b.event } }

/-- `KeyboardEventBuilder::press`. -/
def KeyboardEventBuilder.press (b : KeyboardEventBuilder) : HookEvent :=
  { metadata := b.meta, kind := .KeyPressed b.event }

/-- `KeyboardEventBuilder::release`. -/
def KeyboardEventBuilder.release (b : KeyboardEventBuilder) : HookEvent :=
  { metadata := b.meta, kind := .KeyReleased b.event }

/-- `MouseEventBuilder` state. -/
structure MouseEventBuilder where
  meta : EventMetaData
  event : MouseEvent
  deriving DecidableEq

/-- `HookEvent::mouse(button)`: default metadata except `mode = SYNTHETIC`;
payload starts with `clicks = 0`, `x = y = 0`. -/
def HookEvent.mouse (button : MouseButton) : MouseEventBuilder :=
  { meta := { EventMetaData.default with mode := EventMode.SYNTHETIC },
    event := { button := button, clicks := 0, x := 0, y := 0 } }

/-- `MouseEventBuilder::with_clicks`. -/
def MouseEventBuilder.with_clicks (b : MouseEventBuilder) (clicks : Nat) :
    MouseEventBuilder :=
  { b with event := { b.event with clicks := clicks } }

/-- `MouseEventBuilder::with_mask`. -/
def MouseEventBuilder.with_mask (b : MouseEventBuilder) (mask : EventMask) :
    MouseEventBuilder :=
  { b with meta := { b.meta with mask := mask } }

/-- `MouseEventBuilder::pair`: normalizes `clicks` to at least 1, then
press and release share metadata and payload. -/
def MouseEventBuilder.pair (b : MouseEventBuilder) : EventPair :=
  let event := { b.event with clicks := max b.event.clicks 1 }
  { press := { metadata := b.meta, kind := .MousePressed event },
    release := { metadata := b.meta, kind := .MouseReleased event } }

/-- `MouseEventBuilder::press` (also normalizes `clicks`). -/
def MouseEventBuilder.press (b : MouseEventBuilder) : HookEvent :=
  let event := { b.event with clicks := max b.event.clicks 1 }
  { metadata := b.meta, kind := .MousePressed event }

/-- `MouseEventBuilder::release` (also normalizes `clicks`). -/
def MouseEventBuilder.release (b : MouseEventBuilder) : HookEvent :=
  let event := { b.event with clicks := max b.event.clicks 1 }
  { metadata := b.meta, kind := .MouseReleased event }

/-- `MouseEventBuilder::moved`. -/
def MouseEventBuilder.moved (b : MouseEventBuilder) (x y : Int) : HookEvent :=
  { metadata := b.meta, kind := .MouseMoved { b.event with x := x, y := y } }

/-- `MouseEventBuilder::dragged` (Linux/macOS build: a single
`MouseDragged` event, clicks normalized). -/
def MouseEventBuilder.dragged (b : MouseEventBuilder) (x y : Int) : HookEvent :=
  let event := { b.event with clicks := max b.event.clicks 1, x := x, y := y }
  { metadata := b.meta, kind := .MouseDragged event }

/-- `MouseWheelEventBuilder` state. -/
structure MouseWheelEventBuilder where
  meta : EventMetaData
  event : MouseWheelEvent
  deriving DecidableEq

/-- `HookEvent::scroll(amount, x, y)`: default metadata except
`mode = SYNTHETIC`; payload starts with `clicks = 0`, `kind = Unit`,
`rotation = 0`, `direction = Vertical`. -/
def HookEvent.scroll (amount : Nat) (x y : Int) : MouseWheelEventBuilder :=
  { meta := { EventMetaData.default with mode := EventMode.SYNTHETIC },
    event := { clicks := 0, x := x, y := y, kind := .Unit, amount := amount,
               rotation := 0, direction := .Vertical } }

/-- `MouseWheelEventBuilder::build`. -/
def MouseWheelEventBuilder.build (b : MouseWheelEventBuilder) : HookEvent :=
  { metadata := b.meta, kind := .MouseWheel b.event }

/-! ## Dispatch supervisor (`src/hook/global.rs`)

The hook thread and control thread are embedded as pure functions over
their observable interactions: the outcome of the native `run` primitive
is an explicit argument, the events sent on (resp. drained from) the
`EVENT_BUS` are explicit lists, and registry fan-out is the list of
`(hook id, event)` callback invocations in order. -/

/-- The Linux `HookError` enumeration (`src/error.rs`); the `Unknown`
variant carries the panic/context string (the boxed payload is not
modelled). -/
inductive HookError where
  | OutOfMemory
  | XOpenDisplay
  | XRecordNotFound
  | XRecordAllocRange
  | XRecordCreateContext
  | XRecordEnableContext
  | XRecordGetContext
  | Unknown (info : String)
  deriving DecidableEq

/-- `hook_thread_main`: run the native hook; if `native::hook_start`
(`hook_run`) fails, send a `Disabled` event (with default metadata) on the
event bus before returning the error. The first component is the thread's
return value, the second the list of events it sent on the bus. -/
def hook_thread_main (runResult : Except HookError Unit) :
    Except HookError Unit × List HookEvent :=
  match runResult with
  | .error err =>
    (.error err, [{ metadata := EventMetaData.default, kind := .Disabled }])
  | .ok _ => (.ok (), [])

/-- `HookId` (`u128`). -/
abbrev HookId := Nat

/-- The receive loop of `control_thread_main`: for each event drained from
the bus, fan out to every registered hook (`for hook in HOOKS.iter()`),
then exit the loop if the event was `Disabled`. `bus` is the sequence of
events available on the bus (the loop also ends if the channel is
exhausted); the result is the list of callback invocations `(id, event)`
in order. The registry is held fixed during the loop, matching a run with
no concurrent registration. -/
def control_loop (hooks : List HookId) : List HookEvent → List (HookId × HookEvent)
  | [] => []
  | e :: rest =>
    hooks.map (fun h => (h, e)) ++
      (if e.kind = EventKind.Disabled then [] else control_loop hooks rest)

/-- The prefix of the bus the control loop consumes: everything up to and
including the first `Disabled` event (or the whole bus if none). -/
def processedEvents : List HookEvent → List HookEvent
  | [] => []
  | e :: rest =>
    e :: (if e.kind = EventKind.Disabled then [] else processedEvents rest)

/-- The supervisor's process-wide state: the `RUNNING` flag, the `ENABLED`
condvar flag, and a count of control threads spawned (for stating that the
already-running path spawns nothing). -/
structure DispatchState where
  running : Bool
  enabledReady : Bool
  controlThreadsSpawned : Nat
  deriving DecidableEq

/-- `HookHandle` (opaque join handle). -/
structure HookHandle where
  deriving DecidableEq

/-- `global::hook_start`: a compare-and-swap on `RUNNING` (`false → true`).
On success, spawn the control thread, wait on the `ENABLED` condvar until
the first `Enabled` event is signalled, reset the flag, and return the
handle. On failure (already running), return `None` with nothing spawned
and no state changed. -/
def hook_start (s : DispatchState) : Option HookHandle × DispatchState :=
  if s.running then (Option.none, s)
  else
    (some ⟨⟩,
     { running := true, enabledReady := false,
       controlThreadsSpawned := s.controlThreadsSpawned + 1 })

/-- `global::hook_start_blocking`: the same compare-and-swap; when already
running it returns `Ok(())` immediately, spawning nothing and leaving the
state unchanged. (On CAS success it runs the control loop on the calling
thread; that branch's outcome is the `loopResult` argument, after which
the loop has cleared `RUNNING`.) -/
def hook_start_blocking (s : DispatchState) (loopResult : Except HookError Unit) :
    Except HookError Unit × DispatchState :=
  if s.running then (.ok (), s)
  else (loopResult, { s with running := false })

/-- One allocation step of `register_boxed_hook`'s guarded `HOOK_ID`
counter: `wrapping_add(1)` on `u128`, store, and return the new value as
the registered id. -/
def register_hook_id (counter : Nat) : HookId × Nat :=
  let new_id := (counter + 1) % 2 ^ 128
  (new_id, new_id)

/-- The `HOOK_ID` counter after `n` registrations (it starts at 0). -/
def hookIdCounterAfter : Nat → Nat
  | 0 => 0
  | n + 1 => (register_hook_id (hookIdCounterAfter n)).2

/-- The id returned by the `n`-th registration, `n ≥ 1` (the id returned
equals the counter value just after that call). -/
def nthHookId (n : Nat) : HookId := hookIdCounterAfter n

/-- The first `postable_event` failure across a list of pairs (press
checked before release within each pair), i.e. the error a sequence
operation reports. -/
def firstPostabilityError : List EventPair → Option PostEventError
  | [] => Option.none
  | ep :: rest =>
    match ep.postable with
    | .error e => some e
    | .ok _ => firstPostabilityError rest

end Uiohook

deriving instance DecidableEq for Except

namespace Uiohook

/-! ## Supporting lemmas -/

lemma pair_postable_parts {p : EventPair} (h : p.postable = .ok ()) :
    postable_event p.press = .ok () ∧ postable_event p.release = .ok () := by
  unfold EventPair.postable at h
  cases hp : postable_event p.press with
  | error e => rw [hp] at h; exact absurd h (by simp)
  | ok u => cases u; rw [hp] at h; exact ⟨rfl, h⟩

lemma post_event_ok {e : HookEvent} (h : postable_event e = .ok ()) :
    post_event e = (.ok (), [.post e]) := by
  unfold post_event
  rw [h]

lemma postAll_map {evs : List HookEvent} (h : ∀ e ∈ evs, postable_event e = .ok ()) :
    postAll evs = evs.map Action.post := by
  induction evs with
  | nil => rfl
  | cons e rest ih =>
    have he : postable_event e = .ok () := h e (List.mem_cons_self e rest)
    have hrest : ∀ x ∈ rest, postable_event x = .ok () :=
      fun x hx => h x (List.mem_cons_of_mem e hx)
    simp only [postAll, post_event_ok he, ih hrest, List.map_cons]
    rfl

lemma sequenceCollect_all_ok {pairs : List EventPair}
    (h : ∀ p ∈ pairs, p.postable = .ok ()) :
    sequenceCollect pairs = .ok (pairs.map EventPair.press, pairs.map EventPair.release) := by
  induction pairs with
  | nil => rfl
  | cons p rest ih =>
    have hp : p.postable = .ok () := h p (List.mem_cons_self p rest)
    have hrest : ∀ x ∈ rest, x.postable = .ok () :=
      fun x hx => h x (List.mem_cons_of_mem p hx)
    simp only [sequenceCollect, hp, ih hrest, List.map_cons]

lemma nativeReceived_map_post (evs : List HookEvent) :
    nativeReceived (evs.map Action.post) = evs.map into_native := by
  induction evs with
  | nil => rfl
  | cons e rest ih => simp only [List.map_cons, nativeReceived, ih]

lemma nativeReceived_append (t1 t2 : List Action) :
    nativeReceived (t1 ++ t2) = nativeReceived t1 ++ nativeReceived t2 := by
  induction t1 with
  | nil => rfl
  | cons a rest ih =>
    cases a with
    | post e => simp only [List.cons_append, nativeReceived, ih, List.append_eq]
    | sleep ms => simp only [List.cons_append, nativeReceived, ih, List.append_eq]

lemma sequenceCollect_first_error {pairs : List EventPair} {err : PostEventError}
    (h : firstPostabilityError pairs = some err) :
    sequenceCollect pairs = .error err := by
  induction pairs with
  | nil => exact absurd h (by simp [firstPostabilityError])
  | cons p rest ih =>
    unfold firstPostabilityError at h
    unfold sequenceCollect
    cases hp : p.postable with
    | error e =>
      rw [hp] at h
      simp only [Option.some.injEq] at h
      rw [h]
    | ok u =>
      cases u
      rw [hp] at h
      rw [ih h]

lemma firstPostabilityError_of_failing {pairs : List EventPair}
    (h : ∃ p ∈ pairs, p.postable ≠ .ok ()) :
    ∃ err, firstPostabilityError pairs = some err := by
  induction pairs with
  | nil => simp at h
  | cons p rest ih =>
    unfold firstPostabilityError
    cases hp : p.postable with
    | error e => exact ⟨e, rfl⟩
    | ok u =>
      cases u
      obtain ⟨q, hq, hqfail⟩ := h
      rcases List.mem_cons.mp hq with rfl | hq
      · exact absurd hp hqfail
      · exact ih ⟨q, hq, hqfail⟩

/-! ## Claim C1 -/

/-- Claim C1: for every sequence of event pairs in which every pair passes
the postability check, `post_sequence` (and `post_delayed_sequence`)
succeeds, handing the native engine all press events (in the original
input order) before any release event (also in the original input order);
in the delayed variant only the sleep separates the two blocks. -/
theorem claim_C1_sequence_order (pairs : List EventPair) (delay : Nat)
    (h : ∀ p ∈ pairs, p.postable = .ok ()) :
    post_sequence pairs =
      (.ok (), (pairs.map EventPair.press).map Action.post ++
        (pairs.map EventPair.release).map Action.post) ∧
    post_delayed_sequence pairs delay =
      (.ok (), (pairs.map EventPair.press).map Action.post ++
        [.sleep delay] ++ (pairs.map EventPair.release).map Action.post) ∧
    nativeReceived (post_sequence pairs).2 =
      (pairs.map EventPair.press).map into_native ++
        (pairs.map EventPair.release).map into_native := by
  have hpress : ∀ e ∈ pairs.map EventPair.press, postable_event e = .ok () := by
    intro e he
    obtain ⟨p, hp, rfl⟩ := List.mem_map.mp he
    exact (pair_postable_parts (h p hp)).1
  have hrelease : ∀ e ∈ pairs.map EventPair.release, postable_event e = .ok () := by
    intro e he
    obtain ⟨p, hp, rfl⟩ := List.mem_map.mp he
    exact (pair_postable_parts (h p hp)).2
  have hseq : post_sequence pairs =
      (.ok (), (pairs.map EventPair.press).map Action.post ++
        (pairs.map EventPair.release).map Action.post) := by
    simp only [post_sequence, sequenceCollect_all_ok h, postAll_map hpress,
      postAll_map hrelease]
  refine ⟨hseq, ?_, ?_⟩
  · simp only [post_delayed_sequence, sequenceCollect_all_ok h, postAll_map hpress,
      postAll_map hrelease]
  · rw [hseq, nativeReceived_append, nativeReceived_map_post, nativeReceived_map_post]

/-- Witness for C1 at a concrete Ctrl-C sequence. -/
theorem claim_C1_sequence_order_witness :
    (∀ p ∈ [((HookEvent.keyboard (Key.Named KeyName.LeftControl)).with_mask EventMask.LeftControl).pair,
            ((HookEvent.keyboard (Key.Named KeyName.C)).with_mask EventMask.LeftControl).pair],
        p.postable = .ok ()) ∧
    post_sequence
        [((HookEvent.keyboard (Key.Named KeyName.LeftControl)).with_mask EventMask.LeftControl).pair,
         ((HookEvent.keyboard (Key.Named KeyName.C)).with_mask EventMask.LeftControl).pair] =
      (.ok (),
        ([((HookEvent.keyboard (Key.Named KeyName.LeftControl)).with_mask EventMask.LeftControl).pair,
          ((HookEvent.keyboard (Key.Named KeyName.C)).with_mask EventMask.LeftControl).pair].map
            EventPair.press).map Action.post ++
        ([((HookEvent.keyboard (Key.Named KeyName.LeftControl)).with_mask EventMask.LeftControl).pair,
          ((HookEvent.keyboard (Key.Named KeyName.C)).with_mask EventMask.LeftControl).pair].map
            EventPair.release).map Action.post) :=
  ⟨by decide,
   (claim_C1_sequence_order
     [((HookEvent.keyboard (Key.Named KeyName.LeftControl)).with_mask EventMask.LeftControl).pair,
      ((HookEvent.keyboard (Key.Named KeyName.C)).with_mask EventMask.LeftControl).pair]
     5 (by decide)).1⟩

/-! ## Claim C2 -/

/-- Claim C2: if any pair of the sequence fails the postability check,
`post_sequence` and `post_delayed_sequence` return the (first) postability
error and post nothing at all to the native engine. -/
theorem claim_C2_sequence_atomic (pairs : List EventPair) (delay : Nat)
    (h : ∃ p ∈ pairs, p.postable ≠ .ok ()) :
    ∃ err, firstPostabilityError pairs = some err ∧
      post_sequence pairs = (.error err, []) ∧
      post_delayed_sequence pairs delay = (.error err, []) := by
  obtain ⟨err, herr⟩ := firstPostabilityError_of_failing h
  refine ⟨err, herr, ?_, ?_⟩
  · unfold post_sequence
    rw [sequenceCollect_first_error herr]
  · unfold post_delayed_sequence
    rw [sequenceCollect_first_error herr]

/-- Witness for C2: a sequence whose second pair contains a `Disabled`
event is rejected whole, with nothing posted. -/
theorem claim_C2_sequence_atomic_witness :
    (∃ p ∈ [(HookEvent.mouse MouseButton.Left).pair,
            ({ press := { metadata := EventMetaData.default, kind := EventKind.Disabled },
               release := (HookEvent.mouse MouseButton.Left).pair.release : EventPair })],
        p.postable ≠ .ok ()) ∧
    ∃ err, firstPostabilityError
        [(HookEvent.mouse MouseButton.Left).pair,
         ({ press := { metadata := EventMetaData.default, kind := EventKind.Disabled },
            release := (HookEvent.mouse MouseButton.Left).pair.release : EventPair })] = some err ∧
      post_sequence
        [(HookEvent.mouse MouseButton.Left).pair,
         ({ press := { metadata := EventMetaData.default, kind := EventKind.Disabled },
            release := (HookEvent.mouse MouseButton.Left).pair.release : EventPair })] =
        (.error err, []) ∧
      post_delayed_sequence
        [(HookEvent.mouse MouseButton.Left).pair,
         ({ press := { metadata := EventMetaData.default, kind := EventKind.Disabled },
            release := (HookEvent.mouse MouseButton.Left).pair.release : EventPair })] 7 =
        (.error err, []) :=
  ⟨by decide,
   claim_C2_sequence_atomic
     [(HookEvent.mouse MouseButton.Left).pair,
      ({ press := { metadata := EventMetaData.default, kind := EventKind.Disabled },
         release := (HookEvent.mouse MouseButton.Left).pair.release : EventPair })]
     7 (by decide)⟩

/-! ## Claim C3 -/

/-- Claim C3: posting an `Enabled` or `Disabled` event (via `post_event`
or `HookEvent::post`) fails with the non-postable-event error naming the
attempted control kind, and nothing reaches the native post primitive;
every other event kind passes the postability check. -/
theorem claim_C3_control_events_rejected (e : HookEvent) :
    (e.kind = .Enabled →
      post_event e = (.error ⟨"Enabled"⟩, []) ∧ e.post = (.error ⟨"Enabled"⟩, [])) ∧
    (e.kind = .Disabled →
      post_event e = (.error ⟨"Disabled"⟩, []) ∧ e.post = (.error ⟨"Disabled"⟩, [])) ∧
    (e.kind ≠ .Enabled → e.kind ≠ .Disabled → postable_event e = .ok ()) := by
  obtain ⟨meta, kind⟩ := e
  cases kind <;>
    simp [post_event, HookEvent.post, postable_event]

/-- Witness for C3 at concrete control and keyboard events. -/
theorem claim_C3_control_events_rejected_witness :
    post_event { metadata := EventMetaData.default, kind := EventKind.Enabled } =
      (.error ⟨"Enabled"⟩, []) ∧
    post_event { metadata := EventMetaData.default, kind := EventKind.Disabled } =
      (.error ⟨"Disabled"⟩, []) ∧
    postable_event ((HookEvent.keyboard (Key.Named KeyName.Escape)).press) = .ok () :=
  ⟨((claim_C3_control_events_rejected
      { metadata := EventMetaData.default, kind := EventKind.Enabled }).1 rfl).1,
   ((claim_C3_control_events_rejected
      { metadata := EventMetaData.default, kind := EventKind.Disabled }).2.1 rfl).1,
   (claim_C3_control_events_rejected
      ((HookEvent.keyboard (Key.Named KeyName.Escape)).press)).2.2
     (by decide) (by decide)⟩

/-! ## Claim C6 -/

lemma processed_append_disabled (pre : List HookEvent) (d : HookEvent)
    (hd : d.kind = EventKind.Disabled) :
    ∃ e ∈ processedEvents (pre ++ [d]), e.kind = EventKind.Disabled := by
  induction pre with
  | nil => exact ⟨d, by simp [processedEvents, hd], hd⟩
  | cons x rest ih =>
    by_cases hx : x.kind = EventKind.Disabled
    · exact ⟨x, by simp [processedEvents, hx], hx⟩
    · obtain ⟨e, he, hek⟩ := ih
      refine ⟨e, ?_, hek⟩
      simp only [List.cons_append, processedEvents, hx, if_false, ite_false]
      exact List.mem_cons_of_mem x he

/-- Claim C6: when the native `run` primitive fails, `hook_thread_main`
sends a `Disabled`-kind event onto the event bus and returns the typed
error; consequently the control thread's receive loop, whatever events
preceded it, processes a disable signal (instead of blocking forever). -/
theorem claim_C6_disabled_sent_on_run_failure (err : HookError) (pre : List HookEvent) :
    hook_thread_main (.error err) =
      (.error err, [{ metadata := EventMetaData.default, kind := EventKind.Disabled }]) ∧
    ∃ e ∈ processedEvents
        (pre ++ [{ metadata := EventMetaData.default, kind := EventKind.Disabled }]),
      e.kind = EventKind.Disabled :=
  ⟨rfl, processed_append_disabled pre _ rfl⟩

/-! ## Claim C7 -/

/-- Claim C7: a `pair()` terminal yields a press and a release that share
the builder's metadata and the very same payload, differing only in the
variant tag (`KeyPressed`/`KeyReleased`, `MousePressed`/`MouseReleased`). -/
theorem claim_C7_pair_halves_equal (kb : KeyboardEventBuilder) (mb : MouseEventBuilder) :
    (kb.pair.press.metadata = kb.pair.release.metadata ∧
     kb.pair.press.kind = EventKind.KeyPressed kb.event ∧
     kb.pair.release.kind = EventKind.KeyReleased kb.event) ∧
    (mb.pair.press.metadata = mb.pair.release.metadata ∧
     ∃ d : MouseEvent, mb.pair.press.kind = EventKind.MousePressed d ∧
       mb.pair.release.kind = EventKind.MouseReleased d) :=
  ⟨⟨rfl, rfl, rfl⟩, rfl, _, rfl, rfl⟩

/-! ## Claim C8 -/

/-- Claim C8: calling `hook_start` while the `RUNNING` flag is set returns
no handle and leaves the dispatch state unchanged (spawning nothing), and
`hook_start_blocking` likewise no-ops with `Ok(())`; only the
`false → true` transition spawns the pipeline and returns a handle. -/
theorem claim_C8_start_idempotent (s : DispatchState) (r : Except HookError Unit) :
    (s.running = true →
      hook_start s = (Option.none, s) ∧ hook_start_blocking s r = (.ok (), s)) ∧
    (s.running = false →
      hook_start s =
        (some ⟨⟩,
         { running := true, enabledReady := false,
           controlThreadsSpawned := s.controlThreadsSpawned + 1 })) := by
  constructor
  · intro h
    constructor <;> simp [hook_start, hook_start_blocking, h]
  · intro h
    simp [hook_start, h]

/-- Witness for C8 at concrete supervisor states. -/
theorem claim_C8_start_idempotent_witness :
    hook_start { running := true, enabledReady := false, controlThreadsSpawned := 1 } =
      (Option.none, { running := true, enabledReady := false, controlThreadsSpawned := 1 }) ∧
    hook_start_blocking
        { running := true, enabledReady := false, controlThreadsSpawned := 1 } (.ok ()) =
      (.ok (), { running := true, enabledReady := false, controlThreadsSpawned := 1 }) ∧
    hook_start { running := false, enabledReady := false, controlThreadsSpawned := 0 } =
      (some ⟨⟩, { running := true, enabledReady := false, controlThreadsSpawned := 1 }) :=
  ⟨((claim_C8_start_idempotent _ (.ok ())).1 rfl).1,
   ((claim_C8_start_idempotent _ (.ok ())).1 rfl).2,
   (claim_C8_start_idempotent
     { running := false, enabledReady := false, controlThreadsSpawned := 0 }
     (.ok ())).2 rfl⟩

/-! ## Claim C9 -/

lemma control_loop_eq (hooks : List HookId) (bus : List HookEvent) :
    control_loop hooks bus =
      (processedEvents bus).flatMap (fun e => hooks.map (fun h => (h, e))) := by
  induction bus with
  | nil => rfl
  | cons e rest ih =>
    by_cases he : e.kind = EventKind.Disabled <;>
      simp [control_loop, processedEvents, he, ih]

lemma processed_has_disabled {bus : List HookEvent}
    (h : ∃ e ∈ bus, e.kind = EventKind.Disabled) :
    ∃ e ∈ processedEvents bus, e.kind = EventKind.Disabled := by
  induction bus with
  | nil => simp at h
  | cons x rest ih =>
    by_cases hx : x.kind = EventKind.Disabled
    · exact ⟨x, by simp [processedEvents, hx], hx⟩
    · obtain ⟨e, he, hek⟩ := h
      rcases List.mem_cons.mp he with rfl | he
      · exact absurd hek hx
      · obtain ⟨e', he', hek'⟩ := ih ⟨e, he, hek⟩
        refine ⟨e', ?_, hek'⟩
        simp only [processedEvents, hx, if_false, ite_false]
        exact List.mem_cons_of_mem x he'

/-- Claim C9: the control thread's receive loop fans every processed bus
event — the control-only `Enabled`/`Disabled` events included — out to
every registered hook; in particular, when the bus carries a `Disabled`
event, a disable signal is delivered to all hooks before the loop exits. -/
theorem claim_C9_fanout_delivers_all (hooks : List HookId) (bus : List HookEvent) :
    control_loop hooks bus =
      (processedEvents bus).flatMap (fun e => hooks.map (fun h => (h, e))) ∧
    (∀ e, e ∈ processedEvents bus → ∀ h, h ∈ hooks →
      (h, e) ∈ control_loop hooks bus) ∧
    ((∃ e ∈ bus, e.kind = EventKind.Disabled) →
      ∃ e ∈ processedEvents bus, e.kind = EventKind.Disabled ∧
        ∀ h, h ∈ hooks → (h, e) ∈ control_loop hooks bus) := by
  have hmem : ∀ e, e ∈ processedEvents bus → ∀ h, h ∈ hooks →
      (h, e) ∈ control_loop hooks bus := by
    intro e he h hh
    rw [control_loop_eq]
    exact List.mem_flatMap.mpr ⟨e, he, List.mem_map.mpr ⟨h, hh, rfl⟩⟩
  refine ⟨control_loop_eq hooks bus, hmem, ?_⟩
  intro h
  obtain ⟨e, he, hek⟩ := processed_has_disabled h
  exact ⟨e, he, hek, fun hk hhk => hmem e he hk hhk⟩

/-- Witness for C9: with two registered hooks and a bus carrying
`Enabled`, a key press, then `Disabled`, every hook receives the control
events, including the terminating `Disabled`. -/
theorem claim_C9_fanout_delivers_all_witness :
    ((1 : HookId), ({ metadata := EventMetaData.default, kind := EventKind.Enabled } : HookEvent)) ∈
      control_loop [1, 2]
        [{ metadata := EventMetaData.default, kind := EventKind.Enabled },
         (HookEvent.keyboard (Key.Named KeyName.A)).press,
         { metadata := EventMetaData.default, kind := EventKind.Disabled }] ∧
    ((2 : HookId), ({ metadata := EventMetaData.default, kind := EventKind.Disabled } : HookEvent)) ∈
      control_loop [1, 2]
        [{ metadata := EventMetaData.default, kind := EventKind.Enabled },
         (HookEvent.keyboard (Key.Named KeyName.A)).press,
         { metadata := EventMetaData.default, kind := EventKind.Disabled }] :=
  ⟨(claim_C9_fanout_delivers_all [1, 2]
      [{ metadata := EventMetaData.default, kind := EventKind.Enabled },
       (HookEvent.keyboard (Key.Named KeyName.A)).press,
       { metadata := EventMetaData.default, kind := EventKind.Disabled }]).2.1
     _ (by decide) 1 (by decide),
   (claim_C9_fanout_delivers_all [1, 2]
      [{ metadata := EventMetaData.default, kind := EventKind.Enabled },
       (HookEvent.keyboard (Key.Named KeyName.A)).press,
       { metadata := EventMetaData.default, kind := EventKind.Disabled }]).2.1
     _ (by decide) 2 (by decide)⟩

/-! ## Claim C10 -/

lemma hookIdCounterAfter_mod (n : Nat) : hookIdCounterAfter n = n % 2 ^ 128 := by
  induction n with
  | zero => rfl
  | succ n ih =>
    show (register_hook_id (hookIdCounterAfter n)).2 = (n + 1) % 2 ^ 128
    rw [ih]
    show (n % 2 ^ 128 + 1) % 2 ^ 128 = (n + 1) % 2 ^ 128
    exact Nat.mod_add_mod n (2 ^ 128) 1

/-- Counterexample to C10 as stated: the claim says id 0 is never
returned, but the registration performed at exact 128-bit wraparound (the
`2 ^ 128`-th call in a process) returns id 0 — `wrapping_add(1)` of
`2 ^ 128 - 1` is 0, and `register_boxed_hook` returns the wrapped counter
unconditionally. -/
theorem claim_C10_counterexample : nthHookId (2 ^ 128) = 0 := by
  show hookIdCounterAfter (2 ^ 128) = 0
  rw [hookIdCounterAfter_mod, Nat.mod_self]

/-- Claim C10 (amended): allocation is sequential with wrapping — the
first registration returns id 1 and each subsequent one the previous id
wrapping-incremented by one; absent 128-bit wraparound the ids are the
call indices, hence nonzero and strictly increasing (0 recurs exactly at
each `2 ^ 128`-th registration). -/
theorem claim_C10_sequential_ids (n : Nat) :
    nthHookId 1 = 1 ∧
    nthHookId (n + 1) = (nthHookId n + 1) % 2 ^ 128 ∧
    (n + 1 < 2 ^ 128 →
      nthHookId (n + 1) = n + 1 ∧ nthHookId (n + 1) ≠ 0 ∧
      ∀ m, 1 ≤ m → m ≤ n → nthHookId m < nthHookId (n + 1)) := by
  refine ⟨rfl, ?_, ?_⟩
  · show hookIdCounterAfter (n + 1) = (hookIdCounterAfter n + 1) % 2 ^ 128
    rw [hookIdCounterAfter_mod, hookIdCounterAfter_mod]
    exact (Nat.mod_add_mod n (2 ^ 128) 1).symm
  · intro hlt
    have hval : nthHookId (n + 1) = n + 1 := by
      show hookIdCounterAfter (n + 1) = n + 1
      rw [hookIdCounterAfter_mod]
      exact Nat.mod_eq_of_lt hlt
    refine ⟨hval, by rw [hval]; exact Nat.succ_ne_zero n, ?_⟩
    intro m h1 hm
    have hmlt : m < 2 ^ 128 := lt_trans (Nat.lt_succ_of_le hm) hlt
    have : nthHookId m = m := by
      show hookIdCounterAfter m = m
      rw [hookIdCounterAfter_mod]
      exact Nat.mod_eq_of_lt hmlt
    rw [this, hval]
    exact Nat.lt_succ_of_le hm

/-- Witness for the amended C10 at the third registration. -/
theorem claim_C10_sequential_ids_witness :
    nthHookId 3 = 3 ∧ nthHookId 1 < nthHookId 3 :=
  ⟨((claim_C10_sequential_ids 2).2.2 (by norm_num)).1,
   ((claim_C10_sequential_ids 2).2.2 (by norm_num)).2.2 1 (by norm_num) (by norm_num)⟩

/-! ## Claim C4

An enum value is *canonical* when the conversions can represent it
faithfully: every named variant is canonical, and an `Unknown v` escape
value is canonical when `v` fits the native field width and collides with
no named constant. Non-canonical values are normalized by the round trip
(the truncating `as` cast, and the decoder's preference for named arms),
which is what the counterexample below exhibits. -/

def canonicalMask : EventMask → Bool
  | .Unknown v => decide (v < 2 ^ 16) && maskArms.all (fun p => p.1 != v)
  | _ => true

def canonicalKey : Key → Bool
  | .Unknown v => decide (v < 2 ^ 16) && keyArms.all (fun p => p.1 != v)
  | .Named _ => true

def canonicalButton : MouseButton → Bool
  | .Unknown v => decide (v < 2 ^ 16) && buttonArms.all (fun p => p.1 != v)
  | _ => true

def canonicalScrollKind : MouseScrollKind → Bool
  | .Unknown v => decide (v < 2 ^ 8) && scrollKindArms.all (fun p => p.1 != v)
  | _ => true

def canonicalScrollDirection : MouseScrollDirection → Bool
  | .Unknown v => decide (v < 2 ^ 8) && scrollDirectionArms.all (fun p => p.1 != v)
  | _ => true

def canonicalKind : EventKind → Bool
  | .Enabled => true
  | .Disabled => true
  | .KeyTyped d => canonicalKey d.keycode
  | .KeyPressed d => canonicalKey d.keycode
  | .KeyReleased d => canonicalKey d.keycode
  | .MouseClicked d => canonicalButton d.button
  | .MousePressed d => canonicalButton d.button
  | .MouseReleased d => canonicalButton d.button
  | .MouseMoved d => canonicalButton d.button
  | .MouseDragged d => canonicalButton d.button
  | .MouseWheel d => canonicalScrollKind d.kind && canonicalScrollDirection d.direction

def canonicalEvent (e : HookEvent) : Bool :=
  canonicalMask e.metadata.mask && canonicalKind e.kind

lemma maskOfCode_maskToCode {m : EventMask} (h : canonicalMask m = true) :
    maskOfCode (maskToCode m) = m := by
  cases m <;> try rfl
  case Unknown v =>
    simp only [canonicalMask, Bool.and_eq_true, decide_eq_true_eq,
      List.all_eq_true] at h
    obtain ⟨hv, hall⟩ := h
    show maskOfCode (v % 2 ^ 16) = EventMask.Unknown v
    rw [Nat.mod_eq_of_lt hv]
    unfold maskOfCode
    rw [List.find?_eq_none.mpr (fun p hp => by simpa using hall p hp)]

lemma keyOfCode_keyToCode {k : Key} (h : canonicalKey k = true) :
    keyOfCode (keyToCode k) = k := by
  cases k with
  | Named n => cases n <;> rfl
  | Unknown v =>
    simp only [canonicalKey, Bool.and_eq_true, decide_eq_true_eq,
      List.all_eq_true] at h
    obtain ⟨hv, hall⟩ := h
    show keyOfCode (v % 2 ^ 16) = Key.Unknown v
    rw [Nat.mod_eq_of_lt hv]
    unfold keyOfCode
    rw [List.find?_eq_none.mpr (fun p hp => by simpa using hall p hp)]

lemma buttonOfCode_buttonToCode {b : MouseButton} (h : canonicalButton b = true) :
    buttonOfCode (buttonToCode b) = b := by
  cases b <;> try rfl
  case Unknown v =>
    simp only [canonicalButton, Bool.and_eq_true, decide_eq_true_eq,
      List.all_eq_true] at h
    obtain ⟨hv, hall⟩ := h
    show buttonOfCode (v % 2 ^ 16) = MouseButton.Unknown v
    rw [Nat.mod_eq_of_lt hv]
    unfold buttonOfCode
    rw [List.find?_eq_none.mpr (fun p hp => by simpa using hall p hp)]

lemma scrollKindOfCode_toCode {s : MouseScrollKind} (h : canonicalScrollKind s = true) :
    scrollKindOfCode (scrollKindToCode s) = s := by
  cases s <;> try rfl
  case Unknown v =>
    simp only [canonicalScrollKind, Bool.and_eq_true, decide_eq_true_eq,
      List.all_eq_true] at h
    obtain ⟨hv, hall⟩ := h
    show scrollKindOfCode (v % 2 ^ 8) = MouseScrollKind.Unknown v
    rw [Nat.mod_eq_of_lt hv]
    unfold scrollKindOfCode
    rw [List.find?_eq_none.mpr (fun p hp => by simpa using hall p hp)]

lemma scrollDirectionOfCode_toCode {s : MouseScrollDirection}
    (h : canonicalScrollDirection s = true) :
    scrollDirectionOfCode (scrollDirectionToCode s) = s := by
  cases s <;> try rfl
  case Unknown v =>
    simp only [canonicalScrollDirection, Bool.and_eq_true, decide_eq_true_eq,
      List.all_eq_true] at h
    obtain ⟨hv, hall⟩ := h
    show scrollDirectionOfCode (v % 2 ^ 8) = MouseScrollDirection.Unknown v
    rw [Nat.mod_eq_of_lt hv]
    unfold scrollDirectionOfCode
    rw [List.find?_eq_none.mpr (fun p hp => by simpa using hall p hp)]

lemma keyboard_payload_roundtrip {d : KeyboardEvent} (h : canonicalKey d.keycode = true) :
    keyboardFromNative (keyboardToNative d) = d := by
  obtain ⟨kc, rc, ch⟩ := d
  simp only [keyboardFromNative, keyboardToNative]
  rw [keyOfCode_keyToCode h]

lemma mouse_payload_roundtrip {d : MouseEvent} (h : canonicalButton d.button = true) :
    mouseFromNative (mouseToNative d) = d := by
  obtain ⟨b, c, x, y⟩ := d
  simp only [mouseFromNative, mouseToNative]
  rw [buttonOfCode_buttonToCode h]

lemma wheel_payload_roundtrip {d : MouseWheelEvent}
    (hk : canonicalScrollKind d.kind = true)
    (hd : canonicalScrollDirection d.direction = true) :
    wheelFromNative (wheelToNative d) = d := by
  obtain ⟨c, x, y, k, a, r, dir⟩ := d
  simp only [wheelFromNative, wheelToNative]
  rw [scrollKindOfCode_toCode hk, scrollDirectionOfCode_toCode hd]

/-- Counterexample to C4 as stated: the round trip is not the identity on
every event. The builders leave the default mask `EventMask::Unknown(0)`;
encoding writes native mask 0 (`MASK_NONE`) and decoding maps 0 back to
`EventMask::None`, a different value of the enum. Witnessed by the
concrete builder event `HookEvent::mouse(NoButton).moved(10, 10)`. -/
theorem claim_C4_roundtrip_counterexample :
    ((from_native Option.none 0 (into_native
        ((HookEvent.mouse MouseButton.NoButton).moved 10 10))).1).metadata.mask ≠
      ((HookEvent.mouse MouseButton.NoButton).moved 10 10).metadata.mask := by
  decide

/-- Claim C4 (amended): for every event whose mask and payload enum fields
are canonical (named variants, or `Unknown` codes that fit the native
field width and collide with no named constant — all events the native
engine itself produces are of this shape), decoding the encoding
reproduces the metadata mask and the whole payload exactly, for any state
of the timestamp cell; and encoding always zeroes the native `time` and
`reserved` fields, so the time (and mode) are by design not round-tripped. -/
theorem claim_C4_roundtrip_canonical (e : HookEvent) (base : Option Nat) (now : Nat)
    (h : canonicalEvent e = true) :
    ((from_native base now (into_native e)).1).metadata.mask = e.metadata.mask ∧
    ((from_native base now (into_native e)).1).kind = e.kind ∧
    (into_native e).time = 0 ∧ (into_native e).reserved = 0 := by
  obtain ⟨⟨t, mask, mode⟩, kind⟩ := e
  simp only [canonicalEvent, Bool.and_eq_true] at h
  obtain ⟨hmask, hkind⟩ := h
  have hm : maskOfCode (maskToCode mask) = mask := maskOfCode_maskToCode hmask
  cases kind with
  | Enabled => exact ⟨hm, rfl, rfl, rfl⟩
  | Disabled => exact ⟨hm, rfl, rfl, rfl⟩
  | KeyTyped d =>
    refine ⟨hm, ?_, rfl, rfl⟩
    show EventKind.KeyTyped (keyboardFromNative (keyboardToNative d)) = EventKind.KeyTyped d
    rw [keyboard_payload_roundtrip hkind]
  | KeyPressed d =>
    refine ⟨hm, ?_, rfl, rfl⟩
    show EventKind.KeyPressed (keyboardFromNative (keyboardToNative d)) = EventKind.KeyPressed d
    rw [keyboard_payload_roundtrip hkind]
  | KeyReleased d =>
    refine ⟨hm, ?_, rfl, rfl⟩
    show EventKind.KeyReleased (keyboardFromNative (keyboardToNative d)) = EventKind.KeyReleased d
    rw [keyboard_payload_roundtrip hkind]
  | MouseClicked d =>
    refine ⟨hm, ?_, rfl, rfl⟩
    show EventKind.MouseClicked (mouseFromNative (mouseToNative d)) = EventKind.MouseClicked d
    rw [mouse_payload_roundtrip hkind]
  | MousePressed d =>
    refine ⟨hm, ?_, rfl, rfl⟩
    show EventKind.MousePressed (mouseFromNative (mouseToNative d)) = EventKind.MousePressed d
    rw [mouse_payload_roundtrip hkind]
  | MouseReleased d =>
    refine ⟨hm, ?_, rfl, rfl⟩
    show EventKind.MouseReleased (mouseFromNative (mouseToNative d)) = EventKind.MouseReleased d
    rw [mouse_payload_roundtrip hkind]
  | MouseMoved d =>
    refine ⟨hm, ?_, rfl, rfl⟩
    show EventKind.MouseMoved (mouseFromNative (mouseToNative d)) = EventKind.MouseMoved d
    rw [mouse_payload_roundtrip hkind]
  | MouseDragged d =>
    refine ⟨hm, ?_, rfl, rfl⟩
    show EventKind.MouseDragged (mouseFromNative (mouseToNative d)) = EventKind.MouseDragged d
    rw [mouse_payload_roundtrip hkind]
  | MouseWheel d =>
    obtain ⟨hk, hd⟩ : canonicalScrollKind d.kind = true ∧
        canonicalScrollDirection d.direction = true := by
      have hb : (canonicalScrollKind d.kind && canonicalScrollDirection d.direction) = true :=
        hkind
      simpa using hb
    refine ⟨hm, ?_, rfl, rfl⟩
    show EventKind.MouseWheel (wheelFromNative (wheelToNative d)) = EventKind.MouseWheel d
    rw [wheel_payload_roundtrip hk hd]

/-- Witness for the amended C4 at a concrete canonical keyboard event. -/
theorem claim_C4_roundtrip_canonical_witness :
    canonicalEvent (((HookEvent.keyboard (Key.Named KeyName.Escape)).with_mask
        EventMask.LeftControl).press) = true ∧
    ((from_native Option.none 0 (into_native
        (((HookEvent.keyboard (Key.Named KeyName.Escape)).with_mask
            EventMask.LeftControl).press))).1).metadata.mask =
      (((HookEvent.keyboard (Key.Named KeyName.Escape)).with_mask
          EventMask.LeftControl).press).metadata.mask ∧
    ((from_native Option.none 0 (into_native
        (((HookEvent.keyboard (Key.Named KeyName.Escape)).with_mask
            EventMask.LeftControl).press))).1).kind =
      (((HookEvent.keyboard (Key.Named KeyName.Escape)).with_mask
          EventMask.LeftControl).press).kind :=
  ⟨by decide,
   (claim_C4_roundtrip_canonical
     (((HookEvent.keyboard (Key.Named KeyName.Escape)).with_mask
         EventMask.LeftControl).press) Option.none 0 (by decide)).1,
   (claim_C4_roundtrip_canonical
     (((HookEvent.keyboard (Key.Named KeyName.Escape)).with_mask
         EventMask.LeftControl).press) Option.none 0 (by decide)).2.1⟩

/-! ## Claim C5 -/

lemma or_two_and_two (b : Nat) : (b ||| 2) &&& 2 = 2 := by
  have h2 : (2 : Nat) = 2 ^ 1 := by norm_num
  rw [h2, Nat.and_two_pow, Nat.testBit_lor]
  have h : ((2 : Nat) ^ 1).testBit 1 = true := by decide
  rw [h, Bool.or_true]
  norm_num

lemma or_one_and_two (b : Nat) : (b ||| 1) &&& 2 = b &&& 2 := by
  have h2 : (2 : Nat) = 2 ^ 1 := by norm_num
  rw [h2, Nat.and_two_pow, Nat.and_two_pow, Nat.testBit_lor]
  have h : Nat.testBit 1 1 = false := by decide
  rw [h, Bool.or_false]

lemma insert_synthetic_contains (m : EventMode) :
    (m.insert EventMode.SYNTHETIC).contains EventMode.SYNTHETIC = true := by
  show ((m.bits ||| 2) &&& 2 == 2) = true
  rw [or_two_and_two]
  rfl

lemma insert_reserved_preserves_synthetic (m : EventMode) :
    (m.insert EventMode.RESERVED).contains EventMode.SYNTHETIC =
      m.contains EventMode.SYNTHETIC := by
  show ((m.bits ||| 1) &&& 2 == 2) = (m.bits &&& 2 == 2)
  rw [or_one_and_two]

/-- Counterexample to C5 as stated: the `SYNTHETIC` flag is not set only
by the Native Bridge's compare-and-swap tagging — the builder entry points
(`HookEvent::keyboard`/`mouse`/`scroll`) pre-set `SYNTHETIC` on every
event they construct. Concretely, `HookEvent::keyboard(Key::A).press()`
carries `SYNTHETIC` before any native interaction occurs. -/
theorem claim_C5_synthetic_counterexample :
    ((HookEvent.keyboard (Key.Named KeyName.A)).press).is_synthetic = true ∧
    ((HookEvent.keyboard (Key.Named KeyName.A)).press).metadata.mode =
      EventMode.SYNTHETIC := by
  constructor <;> rfl

/-- Claim C5 (amended): `SYNTHETIC` is set in exactly two places. The
builder entry points pre-set it at construction (every builder-made event
has mode `SYNTHETIC`); and on the decode path, `set_mode` adds `SYNTHETIC`
to an incoming event exactly when the compare-and-swap against the
just-posted type cell succeeds (clearing the cell), wherever the
reservation filter leaves the flag untouched; plain decoding of a native
record with a zeroed `reserved` field never yields a synthetic event. -/
theorem claim_C5_synthetic_setters (key : Key) (button : MouseButton)
    (amount : Nat) (x y : Int) (cell : Nat)
    (filter : Option (HookEvent → Bool)) (e : HookEvent) (native : NativeEvent)
    (base : Option Nat) (now : Nat) :
    (HookEvent.keyboard key).meta.mode = EventMode.SYNTHETIC ∧
    (HookEvent.mouse button).meta.mode = EventMode.SYNTHETIC ∧
    (HookEvent.scroll amount x y).meta.mode = EventMode.SYNTHETIC ∧
    ((set_mode cell filter e native).1).is_synthetic =
      (e.is_synthetic || (cell == native.type_.code)) ∧
    (set_mode cell filter e native).2.2 =
      (if cell == native.type_.code then 0 else cell) ∧
    ((from_native base now { native with reserved := 0 }).1).is_synthetic = false := by
  refine ⟨rfl, rfl, rfl, ?_, ?_, ?_⟩
  · simp only [set_mode, HookEvent.is_synthetic, EventMetaData.is_synthetic]
    cases hc : (cell == native.type_.code) with
    | false =>
      simp only [Bool.false_eq_true, if_false, ite_false, Bool.or_false]
      cases filter with
      | none => rfl
      | some f =>
        by_cases hf : f e
        · simp only [hf, if_true, ite_true]
          exact insert_reserved_preserves_synthetic e.metadata.mode
        · simp [hf]
    | true =>
      simp only [if_true, ite_true, Bool.or_true]
      cases filter with
      | none => exact insert_synthetic_contains e.metadata.mode
      | some f =>
        set e' : HookEvent :=
          { e with metadata := { e.metadata with
              mode := e.metadata.mode.insert EventMode.SYNTHETIC } } with he'
        by_cases hf : f e'
        · simp only [hf, if_true, ite_true]
          rw [insert_reserved_preserves_synthetic]
          exact insert_synthetic_contains e.metadata.mode
        · simp only [hf, if_false, ite_false]
          exact insert_synthetic_contains e.metadata.mode
  · simp only [set_mode]
    cases hc : (cell == native.type_.code) with
    | false =>
      simp only [Bool.false_eq_true, if_false, ite_false]
      cases filter with
      | none => rfl
      | some f => by_cases hf : f e <;> simp [hf]
    | true =>
      simp only [if_true, ite_true]
      cases filter with
      | none => rfl
      | some f =>
        set e' : HookEvent :=
          { e with metadata := { e.metadata with
              mode := e.metadata.mode.insert EventMode.SYNTHETIC } } with he'
        by_cases hf : f e' <;> simp [hf]
  · simp [from_native, HookEvent.is_synthetic, EventMetaData.is_synthetic,
      EventMode.from_bits, EventMode.contains, EventMode.DEFAULT, EventMode.SYNTHETIC]

/-- Witness for the amended C5: concrete builder events carry `SYNTHETIC`,
and `set_mode` tags an incoming native key-press exactly when the cell
holds its type. -/
theorem claim_C5_synthetic_setters_witness :
    (HookEvent.keyboard (Key.Named KeyName.L)).meta.mode = EventMode.SYNTHETIC ∧
    ((set_mode 4 Option.none
        ((HookEvent.keyboard (Key.Named KeyName.L)).press)
        (into_native ((HookEvent.keyboard (Key.Named KeyName.L)).press))).1).is_synthetic =
      (((HookEvent.keyboard (Key.Named KeyName.L)).press).is_synthetic || (4 == 4)) ∧
    (set_mode 9 Option.none
        ((HookEvent.keyboard (Key.Named KeyName.L)).press)
        (into_native ((HookEvent.keyboard (Key.Named KeyName.L)).press))).2.2 =
      (if (9 : Nat) == 4 then 0 else 9) :=
  ⟨(claim_C5_synthetic_setters (Key.Named KeyName.L) MouseButton.Left 0 0 0 4
      Option.none ((HookEvent.keyboard (Key.Named KeyName.L)).press)
      (into_native ((HookEvent.keyboard (Key.Named KeyName.L)).press))
      Option.none 0).1,
   (claim_C5_synthetic_setters (Key.Named KeyName.L) MouseButton.Left 0 0 0 4
      Option.none ((HookEvent.keyboard (Key.Named KeyName.L)).press)
      (into_native ((HookEvent.keyboard (Key.Named KeyName.L)).press))
      Option.none 0).2.2.2.1,
   (claim_C5_synthetic_setters (Key.Named KeyName.L) MouseButton.Left 0 0 0 9
      Option.none ((HookEvent.keyboard (Key.Named KeyName.L)).press)
      (into_native ((HookEvent.keyboard (Key.Named KeyName.L)).press))
      Option.none 0).2.2.2.2.1⟩

end Uiohook
